import Mathlib

/- Verification model of the deno-hashicorp-vault client library.

   The definitions below are a shallow embedding of the session lifecycle and
   renewal engine of the repository:
   - `src/client.ts`   : class VaultClient (session state, login, logout,
                         lookup, renewToken, issueToken, read, write, unwrap,
                         renewInterval, renewTimer, createRenewTimer)
   - `src/auth.ts`     : credential variants (token / approle)
   - `src/unnamed/part_002` (vault.ts) : doVaultFetch dispatch
   - `src/unnamed/part_003` (http.ts, types.ts) : fetchNoBody, HTTPError,
                         AuthData, TokenLookupResponse, TokenType

   Network interaction is modelled with an oracle: every operation takes the
   parsed server response (or transport/validation failure) for each request it
   may issue, and returns the list of requests it actually issued, so that
   "fails before issuing any network call" is expressible. -/

deriving instance DecidableEq for Except

namespace Vault

/-- Error taxonomy of the client, as thrown by the source:
    `noToken` is the "No valid token available" error (client.ts tokenInfo and
    lookup), `unsupportedAuthType` the login default branch, `http` the
    HTTPError of src/unnamed/part_003 (status plus request URL path),
    `validation` a zod parse failure, `cancelled` an AbortSignal rejection, and
    `creationPathMismatch` the unwrap creation-path assertion failure. -/
inductive VaultError where
  | noToken
  | unsupportedAuthType (authType : String)
  | http (status : Nat) (path : String)
  | validation
  | cancelled
  | creationPathMismatch (expected actual : String)
deriving DecidableEq, Repr

/-- Token type enum of types.ts (src/unnamed/part_003): "batch" or "service". -/
inductive TokenType where
  | batch
  | service
deriving DecidableEq, Repr

/-- AuthData of types.ts: the `auth` object of a login/renew/create response
    (policy lists omitted; no claim mentions them). -/
structure AuthData where
  client_token : String
  accessor : String
  lease_duration : Nat
  renewable : Bool
  token_type : TokenType
deriving DecidableEq, Repr

/-- Payload of TokenLookupResponse.data of types.ts. -/
structure LookupData where
  accessor : String
  renewable : Bool
  ttl : Nat
  type : TokenType
deriving DecidableEq, Repr

/-- Credential variants of src/auth.ts, tagged by the VAULT_AUTH_TYPE string.
    `token` and `approle` are the two recognized kinds; `other t` stands for
    any credential whose auth-type string `t` is neither of those, which the
    login dispatch rejects. Every variant carries the optional logoutRevoke
    flag (absent = false). -/
inductive Authentication where
  | token (mountpoint : String) (tok : String) (logoutRevoke : Bool)
  | approle (mountpoint : String) (roleID : String) (secretID : Option String) (logoutRevoke : Bool)
  | other (authType : String) (mountpoint : String) (logoutRevoke : Bool)
deriving DecidableEq, Repr

/-- The logoutRevoke flag of a credential (auth.ts `logoutRevoke?: boolean`;
    an absent flag is falsy). -/
def Authentication.logoutRevoke : Authentication → Bool
  | .token _ _ lr => lr
  | .approle _ _ _ lr => lr
  | .other _ _ lr => lr

/-- Mutable fields of VaultClient (src/client.ts 25-29).
    `renewTimerHandle = some d` models a scheduled, not-yet-fired,
    not-cancelled renewal timer with delay `d` milliseconds; the source stores
    the numeric setTimeout handle, which identifies exactly such a live task
    (clearTimeout of a fired or cleared handle is a no-op), so the model keeps
    the delay of the live pending task and `none` when no timer is pending. -/
structure ClientState where
  currentToken : Option String
  currentTokenAccessor : Option String
  currentLeaseDuration : Nat
  renewTimerHandle : Option Nat
  canRevoke : Bool
deriving DecidableEq, Repr

/-- Field initializers of VaultClient: no token, no accessor, lease 0, no
    timer, canRevoke = true (src/client.ts 25-29). -/
def initialState : ClientState :=
  { currentToken := none
    currentTokenAccessor := none
    currentLeaseDuration := 0
    renewTimerHandle := none
    canRevoke := true }

/-- One HTTP request issued by the client: endpoint (service-relative, without
    the /v1/ prefix), method, and the X-Vault-Token header value if any. -/
structure NetCall where
  endpoint : String
  method : String
  token : Option String
deriving DecidableEq, Repr

/-- Result of running one client operation: the successor session state, the
    requests issued (in order), and the value returned or error thrown. -/
structure OpResult (α : Type) where
  state : ClientState
  calls : List NetCall
  result : Except VaultError α
deriving DecidableEq, Repr

/-- JavaScript truthiness of an optional string parameter, as used by
    `accessor ? ... : ...`, `role ? ... : ...` and
    `if (expectedCreationPath)` in src/client.ts: undefined and the empty
    string are falsy. -/
def optTruthy : Option String → Bool
  | none => false
  | some s => s != ""

/-- HTTP response as seen by the response handlers of src/unnamed/part_003:
    status code and the URL path used by HTTPError.fromResponse. -/
structure Response where
  status : Nat
  urlPath : String
deriving DecidableEq, Repr

/-- fetchNoBody of src/unnamed/part_003 (http.ts 45-51): succeed exactly on
    status 204, otherwise throw HTTPError with the status and URL path. -/
def fetchNoBody (r : Response) : Except VaultError Unit :=
  if r.status != 204 then .error (.http r.status r.urlPath) else .ok ()

/-- doVaultFetch of src/unnamed/part_002 (vault.ts 36-59) in the case where
    the caller supplies no validator (`validator === undefined`): the response
    is handed to fetchNoBody. -/
def doVaultFetchNoBody (r : Response) : Except VaultError Unit :=
  fetchNoBody r

/-- VaultClient.renewInterval (src/client.ts 328-332): delay in milliseconds,
    `buffer = Math.ceil(leaseDuration / 5)` (on naturals, `(L + 4) / 5`),
    `desired = Math.max(leaseDuration - buffer, 1) * 1000`,
    capped at the maximum 32-bit timer delay 2147483647. -/
def renewInterval (leaseDuration : Nat) : Nat :=
  let buffer := (leaseDuration + 4) / 5
  let desired := max (leaseDuration - buffer) 1 * 1000
  min desired 2147483647

/-- Delay formula as the specification words it: a delay of
    `max(leaseDuration - ceil(leaseDuration / 5), 1)` seconds (ceiling
    division of a natural by 5 is `(L + 4) / 5`). -/
def specRenewDelaySeconds (leaseDuration : Nat) : Nat :=
  max (leaseDuration - (leaseDuration + 4) / 5) 1

/-- VaultClient.createRenewTimer (src/client.ts 351-362), state effect:
    store a fresh pending timer whose delay is renewInterval(leaseDuration).
    The source overwrites renewTimerHandle with the new setTimeout handle. -/
def createRenewTimer (s : ClientState) (leaseDuration : Nat) : ClientState :=
  { s with renewTimerHandle := some (renewInterval leaseDuration) }

/-- VaultClient.lookup (src/client.ts 145-169): requires a current token
    (throws "No valid token available" before any request otherwise), then
    GETs auth/token/lookup-self or POSTs auth/token/lookup-accessor.
    `resp` is the parsed response of that single request. -/
def lookup (s : ClientState) (accessor : Option String)
    (resp : Except VaultError LookupData) : OpResult LookupData :=
  match s.currentToken with
  | none => ⟨s, [], .error .noToken⟩
  | some tok =>
      let acc := optTruthy accessor
      ⟨s,
       [⟨"auth/token/lookup" ++ (if acc then "-accessor" else "-self"),
         if acc then "POST" else "GET", some tok⟩],
       resp⟩

/-- VaultClient.renewToken (src/client.ts 171-193): requires a current token
    (tokenInfo throws otherwise), POSTs auth/token/renew-self or
    auth/token/renew-accessor, and returns the accessor and lease duration of
    the response auth data. Touches no session state. -/
def renewToken (s : ClientState) (accessor : Option String)
    (resp : Except VaultError AuthData) : OpResult (String × Nat) :=
  match s.currentToken with
  | none => ⟨s, [], .error .noToken⟩
  | some tok =>
      let acc := optTruthy accessor
      ⟨s,
       [⟨"auth/token/renew" ++ (if acc then "-accessor" else "-self"),
         "POST", some tok⟩],
       resp.map fun a => (a.accessor, a.lease_duration)⟩

/-- VaultClient.issueToken (src/client.ts 195-221): requires a current token,
    POSTs auth/token/create or auth/token/create/<role>, and returns the new
    client token, accessor and lease duration. Touches no session state. -/
def issueToken (s : ClientState) (role : Option String)
    (resp : Except VaultError AuthData) : OpResult (String × String × Nat) :=
  match s.currentToken with
  | none => ⟨s, [], .error .noToken⟩
  | some tok =>
      let ep := "auth/token/create" ++ (if optTruthy role then "/" ++ role.getD "" else "")
      ⟨s, [⟨ep, "POST", some tok⟩],
       resp.map fun a => (a.client_token, a.accessor, a.lease_duration)⟩

/-- VaultClient.read (src/client.ts 223-249): requires a current token, then a
    single request to the caller-supplied endpoint with method defaulting to
    GET. `resp` is the parsed (contract-validated) response. -/
def read {α : Type} (s : ClientState) (endpoint : String) (method : Option String)
    (resp : Except VaultError α) : OpResult α :=
  match s.currentToken with
  | none => ⟨s, [], .error .noToken⟩
  | some tok => ⟨s, [⟨endpoint, method.getD "GET", some tok⟩], resp⟩

/-- VaultClient.write (src/client.ts 251-278): requires a current token, then a
    single request to the caller-supplied endpoint with method defaulting to
    POST. When no contract is supplied the response handling is
    doVaultFetchNoBody; `resp` carries the outcome either way. -/
def write {α : Type} (s : ClientState) (endpoint : String) (method : Option String)
    (resp : Except VaultError α) : OpResult α :=
  match s.currentToken with
  | none => ⟨s, [], .error .noToken⟩
  | some tok => ⟨s, [⟨endpoint, method.getD "POST", some tok⟩], resp⟩

/-- VaultClient.unwrap (src/client.ts 280-325). The session token is never
    consulted: both requests authenticate with the caller-supplied wrapping
    token. When expectedCreationPath is truthy, first POST
    sys/wrapping/lookup (`lookupResp` gives its parsed creation_path) and
    throw on an exact-mismatch before ever calling the unwrap endpoint; then
    POST sys/wrapping/unwrap (`unwrapResp` gives its parsed body). -/
def unwrap {α : Type} (s : ClientState) (wrappingToken : String)
    (expectedCreationPath : Option String)
    (lookupResp : Except VaultError String)
    (unwrapResp : Except VaultError α) : OpResult α :=
  let lookupCall : NetCall := ⟨"sys/wrapping/lookup", "POST", some wrappingToken⟩
  let unwrapCall : NetCall := ⟨"sys/wrapping/unwrap", "POST", some wrappingToken⟩
  if optTruthy expectedCreationPath then
    match lookupResp with
    | .error e => ⟨s, [lookupCall], .error e⟩
    | .ok creationPath =>
        let expected := expectedCreationPath.getD ""
        if expected != creationPath then
          ⟨s, [lookupCall], .error (.creationPathMismatch expected creationPath)⟩
        else
          ⟨s, [lookupCall, unwrapCall], unwrapResp⟩
  else
    ⟨s, [unwrapCall], unwrapResp⟩

/-- VaultClient.login (src/client.ts 57-94). Resets currentLeaseDuration to 0
    first, then dispatches on the credential kind:
    - approle: POST <mountpoint>/login with no token header (`approleResp` is
      its parsed auth data); on success store token, accessor, canRevoke
      (service type only) and lease duration.
    - token: store the credential token, then self-lookup with it
      (`lookupResp`); on success store accessor, canRevoke and ttl.
    - any other kind: throw without issuing a request.
    After a successful branch, arm the renewal timer iff the response was
    renewable with a truthy accessor, the lease duration is positive, and the
    enableRenewalTimer option is not explicitly false. -/
def login (s : ClientState) (auth : Authentication) (enableRenewalTimer : Option Bool)
    (approleResp : Except VaultError AuthData)
    (lookupResp : Except VaultError LookupData) : OpResult Unit :=
  let s0 := { s with currentLeaseDuration := 0 }
  match auth with
  | .approle mountpoint _ _ _ =>
      let call : NetCall := ⟨mountpoint ++ "/login", "POST", none⟩
      match approleResp with
      | .error e => ⟨s0, [call], .error e⟩
      | .ok a =>
          let s1 := { s0 with
            currentToken := some a.client_token
            currentTokenAccessor := some a.accessor
            canRevoke := a.token_type == TokenType.service
            currentLeaseDuration := a.lease_duration }
          let isRenewable := a.renewable && a.accessor != ""
          if isRenewable && decide (0 < s1.currentLeaseDuration)
              && (enableRenewalTimer != some false) then
            ⟨createRenewTimer s1 s1.currentLeaseDuration, [call], .ok ()⟩
          else
            ⟨s1, [call], .ok ()⟩
  | .token _ tok _ =>
      let s1 := { s0 with currentToken := some tok }
      let call : NetCall := ⟨"auth/token/lookup-self", "GET", some tok⟩
      match lookupResp with
      | .error e => ⟨s1, [call], .error e⟩
      | .ok d =>
          let s2 := { s1 with
            currentTokenAccessor := some d.accessor
            canRevoke := d.type == TokenType.service
            currentLeaseDuration := d.ttl }
          let isRenewable := d.renewable && d.accessor != ""
          if isRenewable && decide (0 < s2.currentLeaseDuration)
              && (enableRenewalTimer != some false) then
            ⟨createRenewTimer s2 s2.currentLeaseDuration, [call], .ok ()⟩
          else
            ⟨s2, [call], .ok ()⟩
  | .other t _ _ => ⟨s0, [], .error (.unsupportedAuthType t)⟩

/-- VaultClient.logout (src/client.ts 96-117): clear the pending renewal timer
    unconditionally; then, iff the credential has logoutRevoke set and
    canRevoke is true, issue `write undefined "auth/token/revoke-self"`
    (`revokeResp` is its outcome; the write itself throws noToken when no
    token is present). A revoke failure is logged and swallowed unless
    revokeHardFail is set. The token field is never written. -/
def logout (s : ClientState) (auth : Authentication)
    (revokeResp : Except VaultError Unit) (revokeHardFail : Bool) : OpResult Unit :=
  let s1 := { s with renewTimerHandle := none }
  if auth.logoutRevoke && s1.canRevoke then
    let w := write s1 "auth/token/revoke-self" none revokeResp
    match w.result with
    | .ok _ => ⟨w.state, w.calls, .ok ()⟩
    | .error e =>
        if revokeHardFail then ⟨w.state, w.calls, .error e⟩
        else ⟨w.state, w.calls, .ok ()⟩
  else
    ⟨s1, [], .ok ()⟩

/-- Outcome of one renewal attempt against the server, from the point of view
    of the `await this.renewToken()` inside VaultClient.renewTimer:
    a parsed auth response, an HTTPError, or a non-HTTP rejection (network
    failure, validation failure, ...). -/
inductive RenewOutcome where
  | success (accessor : String) (lease_duration : Nat)
  | httpFailure (status : Nat) (path : String)
  | otherFailure
deriving DecidableEq, Repr

/-- VaultClient.renewTimer (src/client.ts 334-349): on success store the new
    accessor and pass the new lease duration on; on an HTTPError with status
    403 rethrow; on any other failure log and return the field
    currentLeaseDuration so the next cycle keeps the previous cadence. -/
def renewTimerBody (s : ClientState) : RenewOutcome → Except VaultError (ClientState × Nat)
  | .success a leaseDur => .ok ({ s with currentTokenAccessor := some a }, leaseDur)
  | .httpFailure status path =>
      if status == 403 then .error (.http status path)
      else .ok (s, s.currentLeaseDuration)
  | .otherFailure => .ok (s, s.currentLeaseDuration)

/-- Events of the renewal scheduler's lifetime, interleavable with logout:
    `fire` is the pending setTimeout callback starting (renewal goes in
    flight), `complete o` is the in-flight renewal settling with outcome `o`,
    and `logoutTimerClear` is the clearTimeout performed unconditionally at
    the start of VaultClient.logout. -/
inductive SchedEvent where
  | fire
  | complete (o : RenewOutcome)
  | logoutTimerClear
deriving DecidableEq, Repr

/-- Session state plus whether a renewal call is currently in flight (an
    outstanding renewTimer promise; not a field of the source class but a
    fact of its event loop). -/
structure RunState where
  client : ClientState
  inFlight : Bool
deriving DecidableEq, Repr

/-- One scheduler transition (src/client.ts 351-362 with 334-349):
    - fire: a pending timer fires; the renewal goes in flight.
    - complete: the in-flight renewTimer settles. On a non-403 result the
      `.then` callback calls createRenewTimer with the returned lease duration
      - unconditionally, with no check that the scheduler was cancelled in the
      meantime; on a 403 rethrow the `.catch` logs and does not re-arm.
    - logoutTimerClear: clearTimeout of the pending timer; the in-flight
      renewal (if any) is neither awaited nor cancelled. -/
def schedStep (rs : RunState) : SchedEvent → RunState
  | .fire =>
      if rs.client.renewTimerHandle.isSome then
        ⟨{ rs.client with renewTimerHandle := none }, true⟩
      else rs
  | .complete o =>
      if rs.inFlight then
        match renewTimerBody rs.client o with
        | .ok (c, leaseDur) => ⟨createRenewTimer c leaseDur, false⟩
        | .error _ => ⟨rs.client, false⟩
      else rs
  | .logoutTimerClear => ⟨{ rs.client with renewTimerHandle := none }, rs.inFlight⟩

/-- Run the scheduler over a sequence of events. -/
def schedRun (rs : RunState) : List SchedEvent → RunState
  | [] => rs
  | e :: es => schedRun (schedStep rs e) es

/-- Fixture: AppRole credentials with revoke-on-logout enabled. -/
def approleCreds : Authentication := .approle "auth/approle" "rid" (some "sid") true

/-- Fixture: a renewable service-token auth response with lease 100 seconds. -/
def authData100 : AuthData :=
  { client_token := "tok0", accessor := "acc0", lease_duration := 100
    renewable := true, token_type := .service }

/-- Fixture: a non-renewable self-lookup response with positive ttl. -/
def lookupData0 : LookupData :=
  { accessor := "acc1", renewable := false, ttl := 7200, type := .service }

/-- Fixture: session state right after a successful AppRole login with
    authData100 (token present, revocable, lease 100, timer armed). -/
def loggedInState : ClientState :=
  (login initialState approleCreds none (.ok authData100) (.error .validation)).state

/-- Fixture: the logged-in session with its scheduler armed, no renewal in
    flight. -/
def run0 : RunState := ⟨loggedInState, false⟩

/-- Fixture: the logged-in session after its timer fired, renewal in flight. -/
def rsInFlight : RunState := ⟨{ loggedInState with renewTimerHandle := none }, true⟩

/-- Helper: lookup never mutates session state. -/
theorem lookup_state_eq (s : ClientState) (acc : Option String)
    (rl : Except VaultError LookupData) : (lookup s acc rl).state = s := by
  cases h : s.currentToken <;> simp [lookup, h]

/-- Helper: renewToken never mutates session state. -/
theorem renewToken_state_eq (s : ClientState) (acc : Option String)
    (ra : Except VaultError AuthData) : (renewToken s acc ra).state = s := by
  cases h : s.currentToken <;> simp [renewToken, h]

/-- Helper: issueToken never mutates session state. -/
theorem issueToken_state_eq (s : ClientState) (role : Option String)
    (ra : Except VaultError AuthData) : (issueToken s role ra).state = s := by
  cases h : s.currentToken <;> simp [issueToken, h]

/-- Helper: read never mutates session state. -/
theorem read_state_eq {α : Type} (s : ClientState) (ep : String) (m : Option String)
    (rr : Except VaultError α) : (read s ep m rr).state = s := by
  cases h : s.currentToken <;> simp [read, h]

/-- Helper: write never mutates session state. -/
theorem write_state_eq {α : Type} (s : ClientState) (ep : String) (m : Option String)
    (rr : Except VaultError α) : (write s ep m rr).state = s := by
  cases h : s.currentToken <;> simp [write, h]

/-- Helper: unwrap never mutates session state. -/
theorem unwrap_state_eq {α : Type} (s : ClientState) (wt : String) (p : Option String)
    (rlk : Except VaultError String) (ur : Except VaultError α) :
    (unwrap s wt p rlk ur).state = s := by
  simp only [unwrap]
  split
  · split <;> first | rfl | (split <;> rfl)
  · rfl

/-- Helper: the full state effect of logout is exactly the clearing of the
    pending renewal timer; no other field is written. -/
theorem logout_state_eq (s : ClientState) (auth : Authentication)
    (rv : Except VaultError Unit) (hf : Bool) :
    (logout s auth rv hf).state = { s with renewTimerHandle := none } := by
  by_cases hc : (auth.logoutRevoke && s.canRevoke) = true
  · cases hct : s.currentToken <;> cases rv <;> cases hf <;>
      simp [logout, write, hc, hct]
  · simp [logout, hc]

/-- Helper: a scheduler with no pending timer and no renewal in flight stays
    that way under every sequence of fire, completion and logout events. -/
theorem schedRun_idle (rs : RunState) (h1 : rs.client.renewTimerHandle = none)
    (h2 : rs.inFlight = false) (evs : List SchedEvent) :
    (schedRun rs evs).client.renewTimerHandle = none
    ∧ (schedRun rs evs).inFlight = false := by
  induction evs generalizing rs with
  | nil => exact ⟨h1, h2⟩
  | cons e es ih =>
      have hstep : (schedStep rs e).client.renewTimerHandle = none
          ∧ (schedStep rs e).inFlight = false := by
        cases e with
        | fire => simp [schedStep, h1, h2]
        | complete o => simp [schedStep, h1, h2]
        | logoutTimerClear => simp [schedStep, h2]
      exact ih _ hstep.1 hstep.2

/-- Helper: no scheduler transition writes the stored lease duration. -/
theorem schedStep_lease_eq (rs : RunState) (e : SchedEvent) :
    (schedStep rs e).client.currentLeaseDuration = rs.client.currentLeaseDuration := by
  cases e with
  | fire => by_cases h : rs.client.renewTimerHandle.isSome <;> simp [schedStep, h]
  | complete o =>
      cases o with
      | success a l =>
          by_cases h : rs.inFlight <;>
            simp [schedStep, renewTimerBody, createRenewTimer, h]
      | httpFailure st p =>
          by_cases h : rs.inFlight
          · by_cases h4 : (st == 403) = true <;>
              simp [schedStep, renewTimerBody, createRenewTimer, h, h4]
          · simp [schedStep, h]
      | otherFailure =>
          by_cases h : rs.inFlight <;>
            simp [schedStep, renewTimerBody, createRenewTimer, h]
  | logoutTimerClear => simp [schedStep]

/-- C1 counterexample: a session that logged in (AppRole, service token,
    revoke-on-logout enabled, revocable = true) and then logged out - with the
    revoke-self call issued exactly once and succeeding - still has its token
    field set afterwards: logout never clears the token, refuting "the token
    field is absent iff the session has never logged in or has logged out"
    and the "clears the token" part of the claim. -/
theorem logout_leaves_token_set :
    (logout loggedInState approleCreds (.ok ()) false).state.currentToken = some "tok0"
    ∧ (logout loggedInState approleCreds (.ok ()) false).state.currentToken ≠ none
    ∧ (logout loggedInState approleCreds (.ok ()) false).calls =
        [⟨"auth/token/revoke-self", "POST", some "tok0"⟩] := by decide

/-- C1 (amended): logout never writes the token field, so the token is absent
    iff no login call has stored one. On a session whose credentials enable
    revoke-on-logout, whose revocable flag is true and whose token is present,
    logout issues exactly one auth/token/revoke-self call (leaving the token
    set); when the revocable flag is false it issues none. -/
theorem logout_revoke_calls (s : ClientState) (auth : Authentication)
    (rv : Except VaultError Unit) (hf : Bool) (t : String)
    (h1 : auth.logoutRevoke = true) (h2 : s.canRevoke = true)
    (h3 : s.currentToken = some t) :
    (logout s auth rv hf).calls = [⟨"auth/token/revoke-self", "POST", some t⟩]
    ∧ (∀ (s' : ClientState) (rv' : Except VaultError Unit) (hf' : Bool),
        (logout s' auth rv' hf').state.currentToken = s'.currentToken)
    ∧ (∀ (s' : ClientState) (rv' : Except VaultError Unit) (hf' : Bool),
        s'.canRevoke = false → (logout s' auth rv' hf').calls = []) := by
  refine ⟨?_, ?_, ?_⟩
  · cases rv <;> cases hf <;> simp [logout, write, h1, h2, h3]
  · intro s' rv' hf'
    rw [logout_state_eq]
  · intro s' rv' hf' hcr
    simp [logout, hcr]

/-- C1 witness: the amended claim applied to the logged-in fixture. -/
theorem logout_revoke_calls_witness :
    (logout loggedInState approleCreds (.ok ()) true).calls =
      [⟨"auth/token/revoke-self", "POST", some "tok0"⟩] :=
  (logout_revoke_calls loggedInState approleCreds (.ok ()) true "tok0"
    (by decide) (by decide) (by decide)).1

/-- C2 counterexample: on a fresh session that has never logged in (token
    absent), unwrap does not fail with the unauthenticated condition - it
    issues its network call to the unwrap endpoint, authenticated with the
    wrapping token, and returns the parsed response. -/
theorem unwrap_ignores_absent_session_token :
    initialState.currentToken = none
    ∧ (unwrap initialState "wt" none (.ok "p") (.ok ()) : OpResult Unit).calls =
        [⟨"sys/wrapping/unwrap", "POST", some "wt"⟩]
    ∧ (unwrap initialState "wt" none (.ok "p") (.ok ()) : OpResult Unit).result
        = .ok () := by decide

/-- C2 (amended): lookup, renewToken, issueToken, read and write, called while
    the session token is absent (before login or after a never-logged-in
    state), fail with the unauthenticated error and issue no network call, for
    every credential kind (no operation consults the credentials); unwrap,
    however, never requires the session token - it authenticates with the
    caller-supplied wrapping token and always issues at least one request. -/
theorem ops_unauthenticated_before_any_call {α : Type}
    (s : ClientState) (h : s.currentToken = none)
    (acc role method p : Option String) (ep wt : String)
    (rl : Except VaultError LookupData) (ra : Except VaultError AuthData)
    (rr : Except VaultError α) (rlk : Except VaultError String) :
    lookup s acc rl = ⟨s, [], .error .noToken⟩
    ∧ renewToken s acc ra = ⟨s, [], .error .noToken⟩
    ∧ issueToken s role ra = ⟨s, [], .error .noToken⟩
    ∧ read s ep method rr = ⟨s, [], .error .noToken⟩
    ∧ write s ep method rr = ⟨s, [], .error .noToken⟩
    ∧ (unwrap s wt p rlk rr).calls ≠ [] := by
  refine ⟨by simp [lookup, h], by simp [renewToken, h], by simp [issueToken, h],
    by simp [read, h], by simp [write, h], ?_⟩
  simp only [unwrap]
  split
  · split
    · simp
    · split <;> simp
  · simp

/-- C2 witness: the amended claim applied to the fresh session. -/
theorem ops_unauthenticated_before_any_call_witness :
    renewToken initialState none (.ok authData100) = ⟨initialState, [], .error .noToken⟩ :=
  (ops_unauthenticated_before_any_call initialState rfl none none none none "ep" "wt"
    (.error .validation) (.ok authData100) (Except.ok () : Except VaultError Unit)
    (.ok "p")).2.1

/-- C3 counterexample: the scheduler of the logged-in fixture (login lease
    100, armed with renewInterval 100 = 80000 ms) performs one successful
    renewal returning lease 200, which re-arms it with renewInterval 200 =
    160000 ms; the next renewal fails with HTTP 500 and re-arms with 80000 ms
    - the stored login-time cadence - not with the previous lease duration
    200 (160000 ms), refuting "re-arms using the previous lease duration
    unchanged". -/
theorem renew_retry_cadence_not_previous :
    (schedRun run0 [.fire, .complete (.success "a1" 200)]).client.renewTimerHandle
      = some (renewInterval 200)
    ∧ (schedRun run0 [.fire, .complete (.success "a1" 200), .fire,
        .complete (.httpFailure 500 "/v1/auth/token/renew-self")]).client.renewTimerHandle
      = some (renewInterval 100)
    ∧ renewInterval 100 ≠ renewInterval 200 := by decide

/-- C3 (amended): a renewal completing with an HTTP 403 never re-arms the
    scheduler, and - provided no timer is pending, as after the fire that
    started the renewal - the scheduler then stays permanently idle: no
    sequence of further fire, completion or logout events arms a timer or
    puts a renewal in flight. A renewal completing with any other failure
    (an HTTP status other than 403, or a non-HTTP failure) re-arms with the
    stored lease duration - the login-time lease, which the failure leaves
    unchanged - rather than with the lease duration behind the previous
    arming. -/
theorem renewTimer_failure_classification (rs : RunState) (hI : rs.inFlight = true)
    (status : Nat) (path : String) (evs : List SchedEvent) :
    (status ≠ 403 →
      schedStep rs (.complete (.httpFailure status path))
        = ⟨createRenewTimer rs.client rs.client.currentLeaseDuration, false⟩)
    ∧ schedStep rs (.complete .otherFailure)
        = ⟨createRenewTimer rs.client rs.client.currentLeaseDuration, false⟩
    ∧ schedStep rs (.complete (.httpFailure 403 path)) = ⟨rs.client, false⟩
    ∧ (rs.client.renewTimerHandle = none →
        (schedRun (schedStep rs (.complete (.httpFailure 403 path))) evs).client.renewTimerHandle
          = none
        ∧ (schedRun (schedStep rs (.complete (.httpFailure 403 path))) evs).inFlight
          = false) := by
  have h403 : schedStep rs (.complete (.httpFailure 403 path)) = ⟨rs.client, false⟩ := by
    simp [schedStep, renewTimerBody, hI]
  refine ⟨?_, ?_, h403, ?_⟩
  · intro hst
    simp [schedStep, renewTimerBody, hI, hst]
  · simp [schedStep, renewTimerBody, hI]
  · intro hT
    rw [h403]
    exact schedRun_idle ⟨rs.client, false⟩ hT rfl evs

/-- C3 witness: the amended claim applied to the in-flight fixture. -/
theorem renewTimer_failure_classification_witness :
    schedStep rsInFlight (.complete .otherFailure)
      = ⟨createRenewTimer rsInFlight.client rsInFlight.client.currentLeaseDuration, false⟩ :=
  (renewTimer_failure_classification rsInFlight rfl 500 "/v1/auth/token/renew-self" []).2.1

/-- C4: arming the renewal scheduler computes the delay
    max(leaseDuration - ceil(leaseDuration / 5), 1) seconds, converted to
    milliseconds and capped at the maximum representable timer delay
    2147483647 ms; for lease 3600 the delay is 2880 seconds and for lease 1
    it is 1 second. -/
theorem renewInterval_formula (L : Nat) :
    renewInterval L = min (specRenewDelaySeconds L * 1000) 2147483647
    ∧ renewInterval 3600 = 2880 * 1000
    ∧ renewInterval 1 = 1 * 1000 :=
  ⟨rfl, by decide, by decide⟩

/-- C6 (evaluation of the code at the failing trace): with the scheduler of
    the logged-in fixture armed, the timer fires (renewal in flight), logout
    clears the pending timer - the scheduler is disarmed - but when the
    in-flight renewal then completes successfully its callback calls
    createRenewTimer unconditionally and the scheduler ends re-armed after
    logout: the in-flight result resurrects the cancelled scheduler, against
    the claim that no renewal task remains armed once logout has been
    called. -/
theorem inflight_renewal_rearms_after_logout :
    (schedRun run0 [.fire, .logoutTimerClear]).client.renewTimerHandle = none
    ∧ (schedRun run0 [.fire, .logoutTimerClear]).inFlight = true
    ∧ (schedRun run0 [.fire, .logoutTimerClear,
        .complete (.success "a2" 100)]).client.renewTimerHandle
      = some (renewInterval 100) := by decide

/-- C5: after a successful login of either credential kind (stated for a
    session with no timer already pending, which login never clears), the
    renewal timer is armed iff the returned token is renewable AND its
    accessor is nonempty AND the lease duration is positive AND the
    enableRenewalTimer option is not explicitly false; in particular a
    token-kind login whose self-lookup returns renewable = false never arms
    the scheduler, regardless of the ttl. -/
theorem login_arms_scheduler_iff (s : ClientState) (hT : s.renewTimerHandle = none)
    (mp rid tokStr : String) (sid : Option String) (lr : Bool)
    (enable : Option Bool) (a : AuthData) (d : LookupData)
    (ra : Except VaultError AuthData) (rl : Except VaultError LookupData) :
    ((login s (.approle mp rid sid lr) enable (.ok a) rl).state.renewTimerHandle ≠ none
      ↔ (a.renewable = true ∧ a.accessor ≠ "" ∧ 0 < a.lease_duration
          ∧ enable ≠ some false))
    ∧ ((login s (.token mp tokStr lr) enable ra (.ok d)).state.renewTimerHandle ≠ none
      ↔ (d.renewable = true ∧ d.accessor ≠ "" ∧ 0 < d.ttl ∧ enable ≠ some false))
    ∧ (d.renewable = false →
        (login s (.token mp tokStr lr) enable ra (.ok d)).state.renewTimerHandle
          = none) := by
  have happ :
      (login s (.approle mp rid sid lr) enable (.ok a) rl).state.renewTimerHandle ≠ none
        ↔ (a.renewable = true ∧ a.accessor ≠ "" ∧ 0 < a.lease_duration
            ∧ enable ≠ some false) := by
    simp only [login, createRenewTimer]
    split
    next hc =>
      simp only [Bool.and_eq_true, bne_iff_ne, decide_eq_true_eq, ne_eq] at hc
      simp only [ne_eq, reduceCtorEq, not_false_eq_true, true_iff]
      exact ⟨hc.1.1.1, hc.1.1.2, hc.1.2, hc.2⟩
    next hc =>
      simp only [Bool.and_eq_true, bne_iff_ne, decide_eq_true_eq, ne_eq] at hc
      simp [hT]
      tauto
  have htok :
      (login s (.token mp tokStr lr) enable ra (.ok d)).state.renewTimerHandle ≠ none
        ↔ (d.renewable = true ∧ d.accessor ≠ "" ∧ 0 < d.ttl ∧ enable ≠ some false) := by
    simp only [login, createRenewTimer]
    split
    next hc =>
      simp only [Bool.and_eq_true, bne_iff_ne, decide_eq_true_eq, ne_eq] at hc
      simp only [ne_eq, reduceCtorEq, not_false_eq_true, true_iff]
      exact ⟨hc.1.1.1, hc.1.1.2, hc.1.2, hc.2⟩
    next hc =>
      simp only [Bool.and_eq_true, bne_iff_ne, decide_eq_true_eq, ne_eq] at hc
      simp [hT]
      tauto
  refine ⟨happ, htok, ?_⟩
  intro hren
  by_contra hsome
  exact absurd (htok.mp hsome).1 (by simp [hren])

/-- C5 witness: the iff applied to the fixtures - the AppRole branch arms on
    the renewable lease-100 response, the token branch never arms on the
    renewable = false self-lookup. -/
theorem login_arms_scheduler_iff_witness :
    (login initialState (.approle "auth/approle" "rid" (some "sid") true) none
        (.ok authData100) (.error .validation)).state.renewTimerHandle ≠ none
    ∧ (login initialState (.token "auth/token" "t" false) none (.error .validation)
        (.ok lookupData0)).state.renewTimerHandle = none :=
  ⟨((login_arms_scheduler_iff initialState rfl "auth/approle" "rid" "t" (some "sid") true
      none authData100 lookupData0 (.error .validation) (.error .validation)).1).mpr
      ⟨rfl, by decide, by decide, by decide⟩,
    (login_arms_scheduler_iff initialState rfl "auth/token" "rid" "t" (some "sid") false
      none authData100 lookupData0 (.error .validation) (.error .validation)).2.2 rfl⟩

/-- C7 counterexample: a token-kind login stores the credential token into the
    session before issuing the self-lookup request; when that lookup fails the
    previously stored token "old" has been overwritten with "new" - a partial
    token update by a failed login, refuting "the previously stored token and
    accessor are left untouched". -/
theorem token_login_failure_overwrites_token :
    (login { initialState with currentToken := some "old" }
        (.token "auth/token" "new" false) none (.error .validation)
        (.error (.http 500 "/v1/auth/token/lookup-self"))).state.currentToken
      = some "new"
    ∧ some "new" ≠ (some "old" : Option String) := by decide

/-- C7 (amended): a failed or cancelled login leaves the old state untouched
    except that currentLeaseDuration is reset to 0 at the start of the call
    and - for the token kind only - currentToken is overwritten with the
    credential token before the self-lookup request is issued; the accessor is
    never partially updated, and failed approle-kind and unsupported-kind
    logins perform no update beyond the lease reset. -/
theorem login_failure_frame (s : ClientState) (mp rid ty tokStr : String)
    (sid : Option String) (lr : Bool) (enable : Option Bool) (e : VaultError)
    (ra : Except VaultError AuthData) (rl : Except VaultError LookupData) :
    (login s (.approle mp rid sid lr) enable (.error e) rl).state
      = { s with currentLeaseDuration := 0 }
    ∧ (login s (.token mp tokStr lr) enable ra (.error e)).state
      = { s with currentLeaseDuration := 0, currentToken := some tokStr }
    ∧ (login s (.other ty mp lr) enable ra rl).state
      = { s with currentLeaseDuration := 0 } :=
  ⟨rfl, rfl, rfl⟩

/-- C8: unwrap with a nonempty expected creation path queries the
    wrapping-lookup endpoint first (it is always the first request issued);
    when the returned creation_path is not exactly the expected one, the call
    fails with the creation-path-mismatch error having issued only that lookup
    call - the unwrap endpoint is never called. -/
theorem unwrap_creation_path_mismatch {α : Type} (s : ClientState)
    (wt expected got : String) (ur : Except VaultError α)
    (hE : expected ≠ "") (hNe : expected ≠ got) :
    unwrap s wt (some expected) (.ok got) ur
      = ⟨s, [⟨"sys/wrapping/lookup", "POST", some wt⟩],
          .error (.creationPathMismatch expected got)⟩
    ∧ (∀ rlk : Except VaultError String,
        (unwrap s wt (some expected) rlk ur).calls.head? =
          some ⟨"sys/wrapping/lookup", "POST", some wt⟩) := by
  constructor
  · simp [unwrap, optTruthy, hE, hNe]
  · intro rlk
    cases rlk with
    | error e => simp [unwrap, optTruthy, hE]
    | ok cp =>
        simp [unwrap, optTruthy, hE]
        split <;> simp

/-- C8 witness: the specification example - expected path auth/token/create
    against a wrapping lookup returning secret/foo. -/
theorem unwrap_creation_path_mismatch_witness :
    unwrap initialState "wt" (some "auth/token/create") (.ok "secret/foo")
        (Except.ok () : Except VaultError Unit)
      = ⟨initialState, [⟨"sys/wrapping/lookup", "POST", some "wt"⟩],
          .error (.creationPathMismatch "auth/token/create" "secret/foo")⟩ :=
  (unwrap_creation_path_mismatch initialState "wt" "auth/token/create" "secret/foo"
    (Except.ok ()) (by decide) (by decide)).1

/-- C9: a request whose caller expects no response body (no contract supplied,
    as in the plain write used by revoke-self) succeeds iff the HTTP status is
    exactly 204; every other status - 200 included - yields the HTTP error
    carrying the status and the request URL path. -/
theorem noBody_success_iff_204 (r : Response) :
    (doVaultFetchNoBody r = .ok () ↔ r.status = 204)
    ∧ (r.status ≠ 204 → doVaultFetchNoBody r = .error (.http r.status r.urlPath)) := by
  constructor
  · constructor
    · intro h
      by_contra hne
      simp [doVaultFetchNoBody, fetchNoBody, bne_iff_ne, hne] at h
    · intro h
      simp [doVaultFetchNoBody, fetchNoBody, bne_iff_ne, h]
  · intro h
    simp [doVaultFetchNoBody, fetchNoBody, bne_iff_ne, h]

/-- C9 witness: a 200 response with no expected body is an error, not a
    success. -/
theorem noBody_success_iff_204_witness :
    doVaultFetchNoBody ⟨200, "/v1/secret/foo"⟩ = .error (.http 200 "/v1/secret/foo") :=
  (noBody_success_iff_204 ⟨200, "/v1/secret/foo"⟩).2 (by decide)

/-- C10: the stored lease duration is written only by login - every request
    operation returns the session state unchanged, logout changes only the
    pending-timer field, and no scheduler transition writes the stored lease
    duration: a successful background renewal updates only the stored accessor
    (re-arming the timer from the response lease it passes along), and a
    transient renewal failure re-arms with the delay computed from the stored
    - login-time - lease duration. -/
theorem lease_duration_written_only_by_login {α : Type} (s : ClientState)
    (acc role method p : Option String) (ep wt : String)
    (rl : Except VaultError LookupData) (ra : Except VaultError AuthData)
    (rr : Except VaultError α) (rlk : Except VaultError String)
    (auth : Authentication) (rv : Except VaultError Unit) (hf : Bool) :
    (lookup s acc rl).state = s
    ∧ (renewToken s acc ra).state = s
    ∧ (issueToken s role ra).state = s
    ∧ (read s ep method rr).state = s
    ∧ (write s ep method rr).state = s
    ∧ (unwrap s wt p rlk rr).state = s
    ∧ (logout s auth rv hf).state = { s with renewTimerHandle := none }
    ∧ (∀ (rs : RunState) (e : SchedEvent),
        (schedStep rs e).client.currentLeaseDuration = rs.client.currentLeaseDuration)
    ∧ (∀ (rs : RunState) (a : String) (leaseDur : Nat), rs.inFlight = true →
        (schedStep rs (.complete (.success a leaseDur))).client
          = createRenewTimer { rs.client with currentTokenAccessor := some a } leaseDur)
    ∧ (∀ (rs : RunState) (path : String), rs.inFlight = true →
        (schedStep rs (.complete (.httpFailure 500 path))).client.renewTimerHandle
          = some (renewInterval rs.client.currentLeaseDuration)) := by
  refine ⟨lookup_state_eq s acc rl, renewToken_state_eq s acc ra,
    issueToken_state_eq s role ra, read_state_eq s ep method rr,
    write_state_eq s ep method rr, unwrap_state_eq s wt p rlk rr,
    logout_state_eq s auth rv hf, fun rs e => schedStep_lease_eq rs e, ?_, ?_⟩
  · intro rs a leaseDur hI
    simp [schedStep, renewTimerBody, hI]
  · intro rs path hI
    simp [schedStep, renewTimerBody, createRenewTimer, hI]

/-- C10 witness: the success and transient-failure conjuncts applied to the
    in-flight fixture. -/
theorem lease_duration_written_only_by_login_witness :
    (schedStep rsInFlight (.complete (.success "a9" 500))).client
      = createRenewTimer { rsInFlight.client with currentTokenAccessor := some "a9" } 500
    ∧ (schedStep rsInFlight (.complete (.httpFailure 500 "p"))).client.renewTimerHandle
      = some (renewInterval rsInFlight.client.currentLeaseDuration) :=
  ⟨(lease_duration_written_only_by_login initialState none none none none "ep" "wt"
      (.error .validation) (.error .validation) (Except.ok () : Except VaultError Unit)
      (.ok "p") approleCreds (.ok ()) false).2.2.2.2.2.2.2.2.1 rsInFlight "a9" 500 rfl,
    (lease_duration_written_only_by_login initialState none none none none "ep" "wt"
      (.error .validation) (.error .validation) (Except.ok () : Except VaultError Unit)
      (.ok "p") approleCreds (.ok ()) false).2.2.2.2.2.2.2.2.2 rsInFlight "p" rfl⟩

end Vault
